import Mathlib

/-!
Shallow embedding of the coupon-management REST service
(`src/services/couponService.js`, first class in the file, together with the
mongoose model methods of `src/models/coupon.js`).

Modelling conventions:
* JS numbers that carry money or percentages become `ℚ`; quantities and
  product ids become `Nat` (both are validated to be positive integers by the
  Joi/mongoose schemas).
* A JS cart value is `JsCart := Option (Option (List Item))`: `none` models a
  `null`/`undefined` cart, `some none` a cart object without an `items` array,
  and `some (some items)` a well-formed cart.  Dereferencing `cart.items` on
  the first two raises a `TypeError`, which the embedding surfaces through
  `Except JsErr`.
* JS truthiness tests on numeric fields (`coupon.minCartValue && …`,
  `coupon.maxDiscount && …`, `coupon.repetitionLimit || 1`,
  `!this.usageLimit`) are modelled as `≠ 0` tests; `Option` models
  absent/null fields.
* The ambient clock (`new Date()` inside `isApplicable`) is passed in as an
  explicit `now : ℚ`.
* `Nat` division models `Math.floor(a / b)` for the nonnegative integers the
  code divides; the schemas force the divisor (`buyReq.quantity`) to be ≥ 1,
  where the two agree.
-/

namespace CouponRest

/-- The `type` field of a coupon; `UNKNOWN` models any string other than the
three recognised tags (the service's `default` switch branches). -/
inductive CouponType where
  | CART_WISE
  | PRODUCT_WISE
  | BXGY
  | UNKNOWN
deriving DecidableEq, Repr

/-- The `discountType` field of the validation schema
(`PERCENTAGE | FIXED_AMOUNT`).  The service class under verification never
reads it; it is kept on the record because the specification talks about it. -/
inductive DiscountKind where
  | PERCENTAGE
  | FIXED_AMOUNT
deriving DecidableEq, Repr

/-- One `{productId, quantity}` entry of `buyProducts` / `getProducts`. -/
structure ProductReq where
  productId : Nat
  quantity : Nat
deriving DecidableEq, Repr

/-- A coupon record as stored by the mongoose schema (`src/models/coupon.js`).
`repetitionLimit = 0` models an absent field (the service reads
`coupon.repetitionLimit || 1`); `minCartValue` defaults to `0` as in the
schema. -/
structure Coupon where
  id : Nat := 0
  code : String := ""
  type : CouponType
  discountValue : ℚ := 0
  discountType : Option DiscountKind := none
  minCartValue : ℚ := 0
  maxDiscount : Option ℚ := none
  applicableProducts : List Nat := []
  buyProducts : List ProductReq := []
  getProducts : List ProductReq := []
  repetitionLimit : Nat := 0
  isActive : Bool := true
  expirationDate : Option ℚ := none
  usageLimit : Option Nat := none
  currentUsage : Nat := 0
deriving DecidableEq, Repr

/-- One cart line item `{productId, quantity, price}`. -/
structure Item where
  productId : Nat
  quantity : Nat
  price : ℚ
deriving DecidableEq, Repr

/-- A JS cart value: `none` is `null`/`undefined`, `some none` an object
without an `items` array, `some (some items)` a well-formed cart. -/
abbrev JsCart := Option (Option (List Item))

/-- A well-formed cart value. -/
def okCart (items : List Item) : JsCart := some (some items)

/-- Reading `cart.items` as an array; `none` when the access would raise a
`TypeError` (cart `null` or `items` missing). -/
def jsItems : JsCart → Option (List Item)
  | some (some items) => some items
  | _ => none

/-- Errors surfaced by the embedding: `typeError` models a raised JS
`TypeError` (property access on `undefined`/`null`), `appError` the `Error`
thrown by `applyCouponToCart`. -/
inductive JsErr where
  | typeError
  | appError (message : String)
deriving DecidableEq, Repr

/-- `coupon.isExpired()` from `src/models/coupon.js`: false without an
`expirationDate`, otherwise `new Date() > expirationDate`. -/
def Coupon.isExpired (c : Coupon) (now : ℚ) : Bool :=
  match c.expirationDate with
  | none => false
  | some d => decide (d < now)

/-- `coupon.isUsageLimitReached()` from `src/models/coupon.js`: false when
`usageLimit` is absent or `0` (falsy), otherwise `currentUsage ≥ usageLimit`. -/
def Coupon.isUsageLimitReached (c : Coupon) : Bool :=
  match c.usageLimit with
  | none => false
  | some l => decide (l ≠ 0) && decide (l ≤ c.currentUsage)

/-- `coupon.isApplicable()` from `src/models/coupon.js`:
`isActive && !isExpired() && !isUsageLimitReached()`. -/
def Coupon.isApplicable (c : Coupon) (now : ℚ) : Bool :=
  c.isActive && !(c.isExpired now) && !c.isUsageLimitReached

/-- The heterogeneous object returned by the applicability checkers; absent
properties are `none`. -/
structure ApplicResult where
  applicable : Bool
  reason : Option String := none
  cartTotal : Option ℚ := none
  applicableItems : Option (List Item) := none
  applicableTotal : Option ℚ := none
  maxApplications : Option Nat := none
  cartProducts : Option (List (Nat × Nat)) := none
deriving DecidableEq, Repr

/-- Assignment `obj[k] = v` on a JS object modelled as an association list
with unique keys in insertion order. -/
def objSet (m : List (Nat × Nat)) (k v : Nat) : List (Nat × Nat) :=
  match m with
  | [] => [(k, v)]
  | (k', v') :: rest => if k' = k then (k, v) :: rest else (k', v') :: objSet rest k v

/-- Property read `obj[k]` on the association-list object. -/
def objGet (m : List (Nat × Nat)) (k : Nat) : Option Nat :=
  match m with
  | [] => none
  | (k', v') :: rest => if k' = k then some v' else objGet rest k

/-- The `reduce` in `calculateCartTotal`: Σ `item.price * item.quantity`. -/
def cartItemsTotal (items : List Item) : ℚ :=
  items.foldl (fun total item => total + item.price * (item.quantity : ℚ)) 0

/-- `CouponService.calculateCartTotal`: `0` for a missing cart or missing
`items` array, otherwise the summed subtotals. -/
def calculateCartTotal (cart : JsCart) : ℚ :=
  match jsItems cart with
  | none => 0
  | some items => cartItemsTotal items

/-- `CouponService.checkCartWiseApplicability`: always applicable, carrying
the cart total as context. -/
def checkCartWiseApplicability (_c : Coupon) (_cart : JsCart) (cartTotal : ℚ) :
    ApplicResult :=
  { applicable := true, cartTotal := some cartTotal }

/-- The filter in `checkProductWiseApplicability`: the cart lines whose
`productId` appears in `applicableProducts`. -/
def matchedItems (c : Coupon) (items : List Item) : List Item :=
  items.filter (fun item => c.applicableProducts.contains item.productId)

/-- `CouponService.checkProductWiseApplicability`.  The configuration check
precedes any cart access; reading `cart.items` on a malformed cart raises. -/
def checkProductWiseApplicability (c : Coupon) (cart : JsCart) :
    Except JsErr ApplicResult :=
  if c.applicableProducts.isEmpty then
    .ok { applicable := false, reason := some "No applicable products defined" }
  else
    match jsItems cart with
    | none => .error .typeError
    | some items =>
      let applicableItems := matchedItems c items
      if applicableItems.isEmpty then
        .ok { applicable := false, reason := some "No applicable products in cart" }
      else
        .ok { applicable := true
              applicableItems := some applicableItems
              applicableTotal := some (cartItemsTotal applicableItems) }

/-- The `cartProducts` object of `checkBxGyApplicability`: each cart line
executes `cartProducts[item.productId] = item.quantity`, overwriting any
earlier line with the same product id. -/
def buildCartProducts (items : List Item) : List (Nat × Nat) :=
  items.foldl (fun m item => objSet m item.productId item.quantity) []

/-- `Math.floor(cartQuantity / buyReq.quantity)` with
`cartQuantity = cartProducts[buyReq.productId] || 0`. -/
def bxgyPossible (cartProducts : List (Nat × Nat)) (r : ProductReq) : Nat :=
  ((objGet cartProducts r.productId).getD 0) / r.quantity

/-- The `maxApplications` loop of `checkBxGyApplicability`, verbatim:
the accumulator is replaced whenever it is still `0` or the new value is
smaller. -/
def bxgyMaxApplications (cartProducts : List (Nat × Nat)) (reqs : List ProductReq) :
    Nat :=
  reqs.foldl
    (fun maxApps r =>
      let possible := bxgyPossible cartProducts r
      if maxApps = 0 ∨ possible < maxApps then possible else maxApps)
    0

/-- `CouponService.checkBxGyApplicability`.  The configuration check precedes
any cart access; `coupon.repetitionLimit || 1` is the effective repetition
limit. -/
def checkBxGyApplicability (c : Coupon) (cart : JsCart) : Except JsErr ApplicResult :=
  if c.buyProducts.isEmpty || c.getProducts.isEmpty then
    .ok { applicable := false, reason := some "Invalid BxGy configuration" }
  else
    match jsItems cart with
    | none => .error .typeError
    | some items =>
      let cartProducts := buildCartProducts items
      let repetitionLimit := if c.repetitionLimit = 0 then 1 else c.repetitionLimit
      let maxApps := min (bxgyMaxApplications cartProducts c.buyProducts) repetitionLimit
      if maxApps = 0 then
        .ok { applicable := false, reason := some "Insufficient quantity of buy products" }
      else
        .ok { applicable := true
              maxApplications := some maxApps
              cartProducts := some cartProducts }

/-- The template literal of the minimum-cart-value rejection. -/
def minCartReason (cartTotal minv : ℚ) : String :=
  "Cart total (" ++ toString cartTotal ++ ") is less than minimum required (" ++
    toString minv ++ ")"

/-- `CouponService.isCouponApplicable`: activity gate, cart total, minimum
cart value (a truthiness test, so a zero `minCartValue` is skipped), then the
per-variant dispatch. -/
def isCouponApplicable (c : Coupon) (cart : JsCart) (now : ℚ) :
    Except JsErr ApplicResult :=
  if !(c.isApplicable now) then
    .ok { applicable := false
          reason := some "Coupon is not active, expired, or usage limit reached" }
  else
    let cartTotal := calculateCartTotal cart
    if c.minCartValue ≠ 0 ∧ cartTotal < c.minCartValue then
      .ok { applicable := false, reason := some (minCartReason cartTotal c.minCartValue) }
    else
      match c.type with
      | .CART_WISE => .ok (checkCartWiseApplicability c cart cartTotal)
      | .PRODUCT_WISE => checkProductWiseApplicability c cart
      | .BXGY => checkBxGyApplicability c cart
      | .UNKNOWN => .ok { applicable := false, reason := some "Unknown coupon type" }

/-- One `{productId, quantity, itemDiscount}` entry of the product-wise
breakdown. -/
structure ItemDiscount where
  productId : Nat
  quantity : Nat
  itemDiscount : ℚ
deriving DecidableEq, Repr

/-- One entry of the BxGy `freeItems` breakdown. -/
structure FreeItem where
  productId : Nat
  freeQuantity : Nat
  itemDiscount : ℚ
  note : Option String := none
deriving DecidableEq, Repr

/-- The heterogeneous object returned by `calculateDiscount`; absent
properties are `none`.  The JS result property named `discountType` (a label
string) is the field `discountType` here. -/
structure DiscountResult where
  discount : ℚ
  applicable : Option Bool := none
  reason : Option String := none
  cartTotal : Option ℚ := none
  applicableItems : Option (List Item) := none
  applicableTotal : Option ℚ := none
  maxApplications : Option Nat := none
  cartProducts : Option (List (Nat × Nat)) := none
  itemDiscounts : Option (List ItemDiscount) := none
  freeItems : Option (List FreeItem) := none
  discountType : Option String := none
deriving DecidableEq, Repr

/-- The spread `{ discount: 0, ...applicability }` on the inapplicable path of
`calculateDiscount`. -/
def DiscountResult.ofApplicability (a : ApplicResult) : DiscountResult :=
  { discount := 0
    applicable := some a.applicable
    reason := a.reason
    cartTotal := a.cartTotal
    applicableItems := a.applicableItems
    applicableTotal := a.applicableTotal
    maxApplications := a.maxApplications
    cartProducts := a.cartProducts }

/-- The max-discount cap of `calculateCartWiseDiscount`:
`if (coupon.maxDiscount && discount > coupon.maxDiscount) discount = coupon.maxDiscount`
(a truthiness test, so a cap of `0` is skipped). -/
def applyMaxDiscountCap (maxDiscount : Option ℚ) (discount : ℚ) : ℚ :=
  match maxDiscount with
  | none => discount
  | some m => if m ≠ 0 ∧ m < discount then m else discount

/-- `CouponService.calculateCartWiseDiscount`.  The code branches on
`discountValue <= 100` (percentage) versus `> 100` (fixed amount), caps by the
(truthy) `maxDiscount` and clamps to the cart total taken from the
applicability context. -/
def calculateCartWiseDiscount (c : Coupon) (_cart : JsCart) (a : ApplicResult) :
    DiscountResult :=
  let cartTotal := a.cartTotal.getD 0
  let raw := if c.discountValue ≤ 100 then cartTotal * c.discountValue / 100
             else c.discountValue
  let capped := applyMaxDiscountCap c.maxDiscount raw
  { discount := min capped cartTotal
    cartTotal := some cartTotal
    discountType := some (if c.discountValue ≤ 100 then "percentage" else "fixed") }

/-- The per-item body of the `forEach` in `calculateProductWiseDiscount`:
percentage versus fixed by `discountValue <= 100`, `Math.min` with a truthy
`maxDiscount`, then clamped to the item's own subtotal. -/
def productWiseItemDiscount (c : Coupon) (item : Item) : ℚ :=
  let base := if c.discountValue ≤ 100 then
                item.price * (item.quantity : ℚ) * c.discountValue / 100
              else c.discountValue * (item.quantity : ℚ)
  let capped := match c.maxDiscount with
                | none => base
                | some m => if m ≠ 0 then min base m else base
  min capped (item.price * (item.quantity : ℚ))

/-- `CouponService.calculateProductWiseDiscount`: the `forEach` accumulates
the per-item discounts and pushes the `{productId, quantity, itemDiscount}`
breakdown, over the `applicableItems` of the applicability context. -/
def calculateProductWiseDiscount (c : Coupon) (_cart : JsCart) (a : ApplicResult) :
    DiscountResult :=
  let items := a.applicableItems.getD []
  { discount := (items.map (productWiseItemDiscount c)).sum
    applicableTotal := a.applicableTotal
    itemDiscounts := some (items.map (fun item =>
      { productId := item.productId
        quantity := item.quantity
        itemDiscount := productWiseItemDiscount c item }))
    discountType := some (if c.discountValue ≤ 100 then "percentage" else "fixed") }

/-- The per-entry body of the `forEach` in `calculateBxGyDiscount`:
`cart.items.find` picks the first cart line with the get-product's id; when
present, `min(getReq.quantity * maxApplications, cartItem.quantity)` units of
it are free; when absent the entry is annotated and contributes `0`. -/
def bxgyFreeItem (items : List Item) (maxApps : Nat) (getReq : ProductReq) :
    FreeItem :=
  match items.find? (fun item => item.productId = getReq.productId) with
  | some cartItem =>
    let actualFreeQuantity := min (getReq.quantity * maxApps) cartItem.quantity
    { productId := getReq.productId
      freeQuantity := actualFreeQuantity
      itemDiscount := cartItem.price * (actualFreeQuantity : ℚ) }
  | none =>
    { productId := getReq.productId
      freeQuantity := getReq.quantity * maxApps
      itemDiscount := 0
      note := some "Item not in cart" }

/-- `CouponService.calculateBxGyDiscount`: the `forEach` over `getProducts`
dereferences `cart.items` (raising on a malformed cart), sums the free-item
discounts and collects the `freeItems` breakdown.  The `maxApplications`
context is always present when `calculateDiscount` reaches this function;
`getD 0` models the (unreachable) `undefined` read. -/
def calculateBxGyDiscount (c : Coupon) (cart : JsCart) (a : ApplicResult) :
    Except JsErr DiscountResult :=
  match jsItems cart with
  | none => .error .typeError
  | some items =>
    let maxApps := a.maxApplications.getD 0
    let freeItems := c.getProducts.map (bxgyFreeItem items maxApps)
    .ok { discount := (freeItems.map FreeItem.itemDiscount).sum
          maxApplications := some maxApps
          freeItems := some freeItems
          discountType := some "free_items" }

/-- `CouponService.calculateDiscount`: re-derives applicability and, when
applicable, dispatches on the coupon type; unknown types yield discount `0`. -/
def calculateDiscount (c : Coupon) (cart : JsCart) (now : ℚ) :
    Except JsErr DiscountResult := do
  let applicability ← isCouponApplicable c cart now
  if !applicability.applicable then
    return DiscountResult.ofApplicability applicability
  else
    match c.type with
    | .CART_WISE => return calculateCartWiseDiscount c cart applicability
    | .PRODUCT_WISE => return calculateProductWiseDiscount c cart applicability
    | .BXGY => calculateBxGyDiscount c cart applicability
    | .UNKNOWN => return { discount := 0, reason := some "Unknown coupon type" }

/-- A cart line of the deep-copied `updatedCart`, with the annotation fields
`applyCouponToCart` may add. -/
structure UpdatedItem where
  productId : Nat
  quantity : Nat
  price : ℚ
  totalDiscount : Option ℚ := none
  discountedPrice : Option ℚ := none
  freeQuantity : Option Nat := none
deriving DecidableEq, Repr

/-- The deep copy (`JSON.parse(JSON.stringify(cart))`) of one cart line. -/
def UpdatedItem.ofItem (item : Item) : UpdatedItem :=
  { productId := item.productId, quantity := item.quantity, price := item.price }

/-- The `appliedCoupon` stamp added to the updated cart. -/
structure AppliedCoupon where
  couponId : Nat
  code : String
  type : CouponType
  discountValue : ℚ
deriving DecidableEq, Repr

/-- The `updatedCart` object returned by `applyCouponToCart`; the totals are
`none` only on the (unreachable) unknown-type path where the `switch` sets
nothing. -/
structure UpdatedCart where
  items : Option (List UpdatedItem) := none
  totalPrice : Option ℚ := none
  totalDiscount : Option ℚ := none
  finalPrice : Option ℚ := none
  appliedCoupon : Option AppliedCoupon := none
deriving DecidableEq, Repr

/-- The `{updatedCart, discountResult}` return value of `applyCouponToCart`. -/
structure ApplyResult where
  updatedCart : UpdatedCart
  discountResult : DiscountResult
deriving DecidableEq, Repr

/-- `updatedCart.items.find(...)` followed by in-place mutation: the first
line with the given product id is replaced by `f` of itself. -/
def applyToFirstMatch (items : List UpdatedItem) (pid : Nat)
    (f : UpdatedItem → UpdatedItem) : List UpdatedItem :=
  match items with
  | [] => []
  | item :: rest =>
    if item.productId = pid then f item :: rest
    else item :: applyToFirstMatch rest pid f

/-- The mutation applied to a found line:
`item.totalDiscount = (item.totalDiscount || 0) + d` and
`item.discountedPrice = price*quantity - item.totalDiscount`. -/
def accumulateItemDiscount (item : UpdatedItem) (d : ℚ) : UpdatedItem :=
  let newTotal := item.totalDiscount.getD 0 + d
  { item with
    totalDiscount := some newTotal
    discountedPrice := some (item.price * (item.quantity : ℚ) - newTotal) }

/-- The PRODUCT_WISE branch of `applyCouponToCart`: the `forEach` over the
breakdown mutates the first matching line of the copied cart. -/
def applyItemDiscounts (items : List UpdatedItem) (ds : List ItemDiscount) :
    List UpdatedItem :=
  ds.foldl
    (fun acc d =>
      applyToFirstMatch acc d.productId (fun item => accumulateItemDiscount item d.itemDiscount))
    items

/-- The BXGY branch of `applyCouponToCart`: the `forEach` over `freeItems`
mutates the first matching line when `itemDiscount > 0`, also recording
`freeQuantity`. -/
def applyFreeItems (items : List UpdatedItem) (fs : List FreeItem) :
    List UpdatedItem :=
  fs.foldl
    (fun acc f =>
      if 0 < f.itemDiscount then
        applyToFirstMatch acc f.productId (fun item =>
          { accumulateItemDiscount item f.itemDiscount with freeQuantity := some f.freeQuantity })
      else acc)
    items

/-- `discountResult.reason || 'Invalid coupon'` (an empty string is falsy). -/
def reasonOrInvalid (r : Option String) : String :=
  match r with
  | none => "Invalid coupon"
  | some s => if s = "" then "Invalid coupon" else s

/-- `CouponService.applyCouponToCart`: throws when the computed discount is
`0`, otherwise builds the deep-copied, annotated cart with
`totalPrice = cartTotal`, `totalDiscount = discount`,
`finalPrice = cartTotal - discount` and the `appliedCoupon` stamp. -/
def applyCouponToCart (c : Coupon) (cart : JsCart) (now : ℚ) :
    Except JsErr ApplyResult := do
  let discountResult ← calculateDiscount c cart now
  if discountResult.discount = 0 then
    throw (.appError ("Cannot apply coupon: " ++ reasonOrInvalid discountResult.reason))
  else
    let copiedItems := (jsItems cart).map (List.map UpdatedItem.ofItem)
    let cartTotal := calculateCartTotal cart
    let stamp : AppliedCoupon :=
      { couponId := c.id, code := c.code, type := c.type
        discountValue := discountResult.discount }
    match c.type with
    | .CART_WISE =>
      return { updatedCart :=
                 { items := copiedItems
                   totalPrice := some cartTotal
                   totalDiscount := some discountResult.discount
                   finalPrice := some (cartTotal - discountResult.discount)
                   appliedCoupon := some stamp }
               discountResult }
    | .PRODUCT_WISE =>
      match copiedItems with
      | none => throw .typeError
      | some items =>
        return { updatedCart :=
                   { items := some (applyItemDiscounts items (discountResult.itemDiscounts.getD []))
                     totalPrice := some cartTotal
                     totalDiscount := some discountResult.discount
                     finalPrice := some (cartTotal - discountResult.discount)
                     appliedCoupon := some stamp }
                 discountResult }
    | .BXGY =>
      match copiedItems with
      | none => throw .typeError
      | some items =>
        return { updatedCart :=
                   { items := some (applyFreeItems items (discountResult.freeItems.getD []))
                     totalPrice := some cartTotal
                     totalDiscount := some discountResult.discount
                     finalPrice := some (cartTotal - discountResult.discount)
                     appliedCoupon := some stamp }
                 discountResult }
    | .UNKNOWN =>
      return { updatedCart := { items := copiedItems, appliedCoupon := some stamp }
               discountResult }

/-- One `{couponId, code, type, discount, details}` entry of the ranked list
built by `getApplicableCoupons`. -/
structure RankedCoupon where
  couponId : Nat
  code : String
  type : CouponType
  discount : ℚ
  details : DiscountResult
deriving DecidableEq, Repr

/-- The entry pushed for a coupon with positive discount. -/
def rankEntry (c : Coupon) (dr : DiscountResult) : RankedCoupon :=
  { couponId := c.id, code := c.code, type := c.type
    discount := dr.discount, details := dr }

/-- The sort order of `applicableCoupons.sort((a, b) => b.discount - a.discount)`:
`a` may stay before `b` iff `b.discount ≤ a.discount`.  ECMAScript
`Array.prototype.sort` is a stable sort, and with this (total, transitive)
comparator its output is the unique stable descending reordering, which
`List.mergeSort` with this order computes. -/
def rankedLE (a b : RankedCoupon) : Bool := decide (b.discount ≤ a.discount)

/-- `CouponService.getApplicableCoupons`, given the coupon collection the
external retrieval collaborator supplies: compute each discount, keep the
entries with `discount > 0` in collection order, then stable-sort by discount
descending. -/
def getApplicableCoupons (coupons : List Coupon) (cart : JsCart) (now : ℚ) :
    Except JsErr (List RankedCoupon) := do
  let entries ← coupons.foldlM
    (fun acc c => do
      let dr ← calculateDiscount c cart now
      if 0 < dr.discount then
        return acc ++ [rankEntry c dr]
      else
        return acc)
    []
  return entries.mergeSort rankedLE

/-! ### Specification-side formulas (for refinement comparisons)

These definitions follow the wording of the specification, to be compared
with the service functions above; they are not translations of the code. -/

/-- The cart-wise discount as the specification words it:
`min(min(cartTotal × discountValue/100, maxDiscount when set), cartTotal)`,
reading "set" as present and non-zero (the JS truthiness guard). -/
def specCartWiseDiscount (c : Coupon) (cartTotal : ℚ) : ℚ :=
  min (match c.maxDiscount with
       | none => cartTotal * c.discountValue / 100
       | some m => min (cartTotal * c.discountValue / 100) m)
      cartTotal

/-- The per-item product-wise discount as the amended claim words it:
percentage (`price×quantity×discountValue/100`) when `discountValue ≤ 100` and
`discountValue×quantity` otherwise, `min`-capped by a set (non-zero)
`maxDiscount` per item, then clamped to the item's own subtotal. -/
def specProductWiseItemDiscount (c : Coupon) (it : Item) : ℚ :=
  let base := if c.discountValue ≤ 100 then
                it.price * (it.quantity : ℚ) * c.discountValue / 100
              else c.discountValue * (it.quantity : ℚ)
  let capped := match c.maxDiscount with
                | none => base
                | some m => min base m
  min capped (it.price * (it.quantity : ℚ))

/-- The entries of the ranking step before sorting, as the specification words
it: the coupons whose computed discount is positive, in collection order. -/
def rankRaw (coupons : List Coupon) (items : List Item) (now : ℚ) :
    List RankedCoupon :=
  coupons.filterMap (fun c =>
    match calculateDiscount c (okCart items) now with
    | .ok dr => if 0 < dr.discount then some (rankEntry c dr) else none
    | .error _ => none)

/-! ### Concrete instances used by witnesses and counterexamples -/

/-- BXGY coupon whose first buy requirement (product 1, two units) has no
units in the cart below, while the second (product 2) is amply satisfied. -/
def bxgyResetCoupon : Coupon :=
  { type := .BXGY, buyProducts := [⟨1, 2⟩, ⟨2, 1⟩], getProducts := [⟨3, 1⟩]
    repetitionLimit := 1 }

/-- Cart with no units of product 1, five of product 2, one of product 3. -/
def bxgyResetCart : List Item := [⟨2, 5, 10⟩, ⟨3, 1, 10⟩]

/-- PRODUCT_WISE coupon with `discountType` FIXED_AMOUNT and a discount value
of 50 (which is ≤ 100, so the service treats it as a percentage). -/
def fixedFiftyCoupon : Coupon :=
  { type := .PRODUCT_WISE, discountValue := 50, discountType := some .FIXED_AMOUNT
    applicableProducts := [1] }

/-- Cart with two units of product 1 at price 10. -/
def fixedFiftyCart : List Item := [⟨1, 2, 10⟩]

/-- The specification's cart-wise running example:
`{discountValue: 10, minCartValue: 1000, maxDiscount: 500}`. -/
def cwCoupon : Coupon :=
  { type := .CART_WISE, discountValue := 10, minCartValue := 1000
    maxDiscount := some 500 }

/-- A cart totalling 2000. -/
def cwCart : List Item := [⟨1, 2, 1000⟩]

/-- The discount result the service computes for `cwCoupon` over `cwCart`. -/
def cwResult : DiscountResult :=
  { discount := 200, cartTotal := some 2000, discountType := some "percentage" }

/-- The specification's product-wise running example:
`applicableProducts = [101]`, PERCENTAGE, value 20. -/
def pwCoupon : Coupon :=
  { type := .PRODUCT_WISE, discountValue := 20, discountType := some .PERCENTAGE
    applicableProducts := [101] }

/-- Cart with three units of product 101 at 500 and one unit of product 999. -/
def pwCart : List Item := [⟨101, 3, 500⟩, ⟨999, 1, 10⟩]

/-- The applicability context the service computes for `pwCoupon` over
`pwCart`. -/
def pwApplic : ApplicResult :=
  { applicable := true, applicableItems := some [⟨101, 3, 500⟩]
    applicableTotal := some 1500 }

/-- The discount result the service computes for `pwCoupon` over `pwCart`. -/
def pwResult : DiscountResult :=
  { discount := 300, applicableTotal := some 1500
    itemDiscounts := some [{ productId := 101, quantity := 3, itemDiscount := 300 }]
    discountType := some "percentage" }

/-- The apply result the service computes for `cwCoupon` over `cwCart`. -/
def cwApplyResult : ApplyResult :=
  { updatedCart :=
      { items := some [{ productId := 1, quantity := 2, price := 1000 }]
        totalPrice := some 2000
        totalDiscount := some 200
        finalPrice := some 1800
        appliedCoupon := some { couponId := 0, code := "", type := .CART_WISE, discountValue := 200 } }
    discountResult := cwResult }

/-- The below-minimum scenario coupon: `minCartValue` 1000. -/
def minFailCoupon : Coupon :=
  { type := .CART_WISE, discountValue := 10, minCartValue := 1000 }

/-- A cart totalling 500. -/
def minFailCart : List Item := [⟨1, 1, 500⟩]

/-- PRODUCT_WISE coupon (no minimum cart value) used against a missing cart. -/
def nullCartCoupon : Coupon :=
  { type := .PRODUCT_WISE, discountValue := 10, discountType := some .PERCENTAGE
    applicableProducts := [1] }

/-- Three ranking coupons: 5% and 20% of a 1000 cart, and one rejected by its
minimum cart value, yielding discounts 50, 200 and 0. -/
def rankCouponA : Coupon := { code := "A", type := .CART_WISE, discountValue := 5 }

def rankCouponB : Coupon := { code := "B", type := .CART_WISE, discountValue := 20 }

def rankCouponZ : Coupon :=
  { code := "Z", type := .CART_WISE, discountValue := 10, minCartValue := 2000 }

/-- A cart totalling 1000. -/
def rankCart : List Item := [⟨1, 1, 1000⟩]

/-- A cart with two lines for product 1 (quantities 1 and 5) and two lines for
product 2 (price 7 quantity 3, then price 50 quantity 2). -/
def dupCart : List Item := [⟨1, 1, 10⟩, ⟨1, 5, 20⟩, ⟨2, 3, 7⟩, ⟨2, 2, 50⟩]

/-- BXGY coupon requiring six units of product 1 (the duplicate lines sum to
six, but the last line alone has five). -/
def dupCouponSix : Coupon :=
  { type := .BXGY, buyProducts := [⟨1, 6⟩], getProducts := [⟨2, 2⟩]
    repetitionLimit := 1 }

/-- BXGY coupon requiring five units of product 1 and granting two of
product 2. -/
def dupCouponFive : Coupon :=
  { type := .BXGY, buyProducts := [⟨1, 5⟩], getProducts := [⟨2, 2⟩]
    repetitionLimit := 1 }

/-! ### Basic lemmas about the embedding -/

theorem foldl_add_eq_sum (f : Item → ℚ) (l : List Item) (a : ℚ) :
    l.foldl (fun t it => t + f it) a = a + (l.map f).sum := by
  induction l generalizing a with
  | nil => simp
  | cons x xs ih => simp [ih, add_assoc]

theorem cartItemsTotal_eq_sum (l : List Item) :
    cartItemsTotal l = (l.map (fun it => it.price * (it.quantity : ℚ))).sum := by
  simpa using foldl_add_eq_sum (fun it => it.price * (it.quantity : ℚ)) l 0

theorem cartItemsTotal_nonneg {l : List Item} (hp : ∀ it ∈ l, 0 ≤ it.price) :
    0 ≤ cartItemsTotal l := by
  rw [cartItemsTotal_eq_sum]
  apply List.sum_nonneg
  intro x hx
  obtain ⟨it, hit, rfl⟩ := List.mem_map.mp hx
  exact mul_nonneg (hp it hit) (Nat.cast_nonneg _)

theorem jsItems_okCart (items : List Item) : jsItems (okCart items) = some items := rfl

theorem calculateCartTotal_okCart (items : List Item) :
    calculateCartTotal (okCart items) = cartItemsTotal items := rfl

/-- On a well-formed cart `isCouponApplicable` never raises. -/
theorem isCouponApplicable_okCart_isOk (c : Coupon) (items : List Item) (now : ℚ) :
    ∃ a, isCouponApplicable c (okCart items) now = .ok a := by
  unfold isCouponApplicable checkProductWiseApplicability checkBxGyApplicability
  simp only [calculateCartTotal_okCart, jsItems_okCart]
  repeat' split
  all_goals exact ⟨_, rfl⟩

/-- What an applicable `isCouponApplicable` result on a well-formed cart looks
like, per variant. -/
theorem applicable_cases {c : Coupon} {items : List Item} {now : ℚ} {a : ApplicResult}
    (h : isCouponApplicable c (okCart items) now = .ok a)
    (happ : a.applicable = true) :
    c.isApplicable now = true ∧
    ¬(c.minCartValue ≠ 0 ∧ cartItemsTotal items < c.minCartValue) ∧
    ((c.type = .CART_WISE ∧
        a = { applicable := true, cartTotal := some (cartItemsTotal items) }) ∨
     (c.type = .PRODUCT_WISE ∧ c.applicableProducts ≠ [] ∧ matchedItems c items ≠ [] ∧
        a = { applicable := true
              applicableItems := some (matchedItems c items)
              applicableTotal := some (cartItemsTotal (matchedItems c items)) }) ∨
     (c.type = .BXGY ∧ c.buyProducts ≠ [] ∧ c.getProducts ≠ [] ∧
        min (bxgyMaxApplications (buildCartProducts items) c.buyProducts)
            (if c.repetitionLimit = 0 then 1 else c.repetitionLimit) ≠ 0 ∧
        a = { applicable := true
              maxApplications := some
                (min (bxgyMaxApplications (buildCartProducts items) c.buyProducts)
                     (if c.repetitionLimit = 0 then 1 else c.repetitionLimit))
              cartProducts := some (buildCartProducts items) })) := by
  unfold isCouponApplicable at h
  cases hg : c.isApplicable now with
  | false =>
    rw [hg] at h
    simp only [Bool.not_false, if_true] at h
    cases h
    simp at happ
  | true =>
    rw [hg] at h
    simp only [Bool.not_true, if_false] at h
    rw [calculateCartTotal_okCart] at h
    by_cases hmin : c.minCartValue ≠ 0 ∧ cartItemsTotal items < c.minCartValue
    · rw [if_pos hmin] at h
      cases h
      simp at happ
    · rw [if_neg hmin] at h
      refine ⟨rfl, hmin, ?_⟩
      cases htype : c.type <;> rw [htype] at h
      · left
        exact ⟨rfl, by cases h; rfl⟩
      · right; left
        unfold checkProductWiseApplicability at h
        by_cases hap : c.applicableProducts.isEmpty
        · rw [if_pos hap] at h
          cases h
          simp at happ
        · rw [if_neg hap] at h
          simp only [jsItems_okCart] at h
          by_cases hm : (matchedItems c items).isEmpty
          · rw [if_pos hm] at h
            cases h
            simp at happ
          · rw [if_neg hm] at h
            cases h
            exact ⟨rfl, by simpa using hap, by simpa using hm, rfl⟩
      · right; right
        unfold checkBxGyApplicability at h
        by_cases hcfg : c.buyProducts.isEmpty || c.getProducts.isEmpty
        · rw [if_pos hcfg] at h
          cases h
          simp at happ
        · rw [if_neg hcfg] at h
          simp only [jsItems_okCart] at h
          by_cases hz :
              min (bxgyMaxApplications (buildCartProducts items) c.buyProducts)
                (if c.repetitionLimit = 0 then 1 else c.repetitionLimit) = 0
          · rw [if_pos hz] at h
            cases h
            simp at happ
          · rw [if_neg hz] at h
            cases h
            simp only [Bool.or_eq_true, not_or] at hcfg
            exact ⟨rfl, by simpa using hcfg.1, by simpa using hcfg.2, hz, rfl⟩
      · cases h
        simp at happ

theorem bind_ok_eq {α β : Type} (a : α) (f : α → Except JsErr β) :
    (do let x ← (Except.ok a : Except JsErr α); f x) = f a := rfl

/-- On a well-formed cart `calculateDiscount` never raises. -/
theorem calculateDiscount_okCart_isOk (c : Coupon) (items : List Item) (now : ℚ) :
    ∃ dr, calculateDiscount c (okCart items) now = .ok dr := by
  obtain ⟨a, ha⟩ := isCouponApplicable_okCart_isOk c items now
  unfold calculateDiscount
  rw [ha, bind_ok_eq]
  cases happ : a.applicable <;> cases c.type <;> exact ⟨_, rfl⟩

theorem if_bang_true {α : Type} {x y : α} : (if (!true) = true then x else y) = y := rfl

theorem if_bang_false {α : Type} {x y : α} : (if (!false) = true then x else y) = x := rfl

theorem calculateDiscount_okCart_inapplicable {c : Coupon} {items : List Item}
    {now : ℚ} {a : ApplicResult}
    (ha : isCouponApplicable c (okCart items) now = .ok a)
    (happ : a.applicable = false) :
    calculateDiscount c (okCart items) now = .ok (DiscountResult.ofApplicability a) := by
  unfold calculateDiscount
  rw [ha, bind_ok_eq, happ, if_bang_false]
  rfl

theorem calculateDiscount_okCart_cw {c : Coupon} {items : List Item}
    {now : ℚ} {a : ApplicResult}
    (ha : isCouponApplicable c (okCart items) now = .ok a)
    (happ : a.applicable = true) (hty : c.type = .CART_WISE) :
    calculateDiscount c (okCart items) now =
      .ok (calculateCartWiseDiscount c (okCart items) a) := by
  unfold calculateDiscount
  rw [ha, bind_ok_eq, happ, if_bang_true, hty]
  rfl

theorem calculateDiscount_okCart_pw {c : Coupon} {items : List Item}
    {now : ℚ} {a : ApplicResult}
    (ha : isCouponApplicable c (okCart items) now = .ok a)
    (happ : a.applicable = true) (hty : c.type = .PRODUCT_WISE) :
    calculateDiscount c (okCart items) now =
      .ok (calculateProductWiseDiscount c (okCart items) a) := by
  unfold calculateDiscount
  rw [ha, bind_ok_eq, happ, if_bang_true, hty]
  rfl

theorem calculateBxGyDiscount_okCart (c : Coupon) (items : List Item) (a : ApplicResult) :
    calculateBxGyDiscount c (okCart items) a =
      .ok { discount := ((c.getProducts.map
              (bxgyFreeItem items (a.maxApplications.getD 0))).map FreeItem.itemDiscount).sum
            maxApplications := some (a.maxApplications.getD 0)
            freeItems := some (c.getProducts.map (bxgyFreeItem items (a.maxApplications.getD 0)))
            discountType := some "free_items" } := rfl

theorem calculateDiscount_okCart_bxgy {c : Coupon} {items : List Item}
    {now : ℚ} {a : ApplicResult}
    (ha : isCouponApplicable c (okCart items) now = .ok a)
    (happ : a.applicable = true) (hty : c.type = .BXGY) :
    calculateDiscount c (okCart items) now =
      .ok { discount := ((c.getProducts.map
              (bxgyFreeItem items (a.maxApplications.getD 0))).map FreeItem.itemDiscount).sum
            maxApplications := some (a.maxApplications.getD 0)
            freeItems := some (c.getProducts.map (bxgyFreeItem items (a.maxApplications.getD 0)))
            discountType := some "free_items" } := by
  unfold calculateDiscount
  rw [ha, bind_ok_eq, happ, if_bang_true, hty]
  exact calculateBxGyDiscount_okCart c items a

theorem mem_of_mem_matchedItems {c : Coupon} {items : List Item} {it : Item}
    (h : it ∈ matchedItems c items) : it ∈ items :=
  (List.mem_filter.mp h).1

theorem applyMaxDiscountCap_nonneg {md : Option ℚ} {d : ℚ} (hd : 0 ≤ d)
    (hm : ∀ m, md = some m → 0 ≤ m) : 0 ≤ applyMaxDiscountCap md d := by
  unfold applyMaxDiscountCap
  cases md with
  | none => exact hd
  | some m =>
    dsimp only
    split_ifs with h
    · exact hm m rfl
    · exact hd

theorem productWiseItemDiscount_nonneg {c : Coupon} {it : Item}
    (hp : 0 ≤ it.price) (hdv : 0 ≤ c.discountValue)
    (hm : ∀ m, c.maxDiscount = some m → 0 ≤ m) :
    0 ≤ productWiseItemDiscount c it := by
  unfold productWiseItemDiscount
  have hsub : (0 : ℚ) ≤ it.price * (it.quantity : ℚ) :=
    mul_nonneg hp (Nat.cast_nonneg _)
  have hbase : (0 : ℚ) ≤
      (if c.discountValue ≤ 100 then it.price * (it.quantity : ℚ) * c.discountValue / 100
       else c.discountValue * (it.quantity : ℚ)) := by
    split_ifs
    · exact div_nonneg (mul_nonneg hsub hdv) (by norm_num)
    · exact mul_nonneg hdv (Nat.cast_nonneg _)
  refine le_min ?_ hsub
  cases hmd : c.maxDiscount with
  | none => exact hbase
  | some m =>
    dsimp only
    by_cases h : m ≠ 0
    · rw [if_pos h]
      exact le_min hbase (hm m hmd)
    · rw [if_neg h]
      exact hbase

theorem productWiseItemDiscount_le_subtotal (c : Coupon) (it : Item) :
    productWiseItemDiscount c it ≤ it.price * (it.quantity : ℚ) :=
  min_le_right _ _

theorem productWiseItemDiscount_eq_spec {c : Coupon}
    (hmax : c.maxDiscount ≠ some 0) (it : Item) :
    productWiseItemDiscount c it = specProductWiseItemDiscount c it := by
  unfold productWiseItemDiscount specProductWiseItemDiscount
  cases hmd : c.maxDiscount with
  | none => rfl
  | some m =>
    have hne : m ≠ 0 := by
      rintro rfl
      exact hmax hmd
    simp only [hne, if_true, ite_true, ne_eq, not_false_eq_true]

/-! ### Claim theorems -/

/-- C1: the claim (and the specification) state that the number of BXGY
applications is `min(repetitionLimit, min over all buy requirements of
floor(cartQuantity/quantity))`, zero whenever a buy requirement's product has
cart quantity zero.  The loop in `checkBxGyApplicability` instead replaces its
running value whenever it is still `0`, so a failed requirement is overridden
by a later satisfied one: on `bxgyResetCoupon` over `bxgyResetCart` (no units
of buy product 1) the service reports applicable with `maxApplications = 1`,
while the claimed formula yields `0`.  This contradicts the code's own
"Insufficient quantity of buy products" intent: a code bug. -/
theorem claim_C1 :
    (isCouponApplicable bxgyResetCoupon (okCart bxgyResetCart) 0).map
        (fun a => (a.applicable, a.maxApplications)) = .ok (true, some 1)
    ∧ bxgyPossible (buildCartProducts bxgyResetCart) ⟨1, 2⟩ = 0
    ∧ min (min (bxgyPossible (buildCartProducts bxgyResetCart) ⟨1, 2⟩)
               (bxgyPossible (buildCartProducts bxgyResetCart) ⟨2, 1⟩))
          bxgyResetCoupon.repetitionLimit = 0 := by
  refine ⟨?_, by decide, by decide⟩
  norm_num [isCouponApplicable, Coupon.isApplicable, Coupon.isExpired,
    Coupon.isUsageLimitReached, calculateCartTotal, jsItems, okCart, cartItemsTotal,
    checkBxGyApplicability, buildCartProducts, objSet, objGet, bxgyPossible,
    bxgyMaxApplications, bxgyResetCoupon, bxgyResetCart, Except.map]

/-- C2 counterexample: the claim keys the per-item formula on
`discountType = PERCENTAGE` versus otherwise.  `fixedFiftyCoupon` has
`discountType` FIXED_AMOUNT with `discountValue` 50 over two units priced 10,
so the claim demands `min(50 × 2, 10 × 2) = 20`; the service branches on
`discountValue ≤ 100` instead and computes the percentage
`10 × 2 × 50 / 100 = 10`. -/
theorem claim_C2_counterexample :
    (calculateDiscount fixedFiftyCoupon (okCart fixedFiftyCart) 0).map
        DiscountResult.discount = .ok 10
    ∧ fixedFiftyCoupon.discountType = some .FIXED_AMOUNT
    ∧ min (fixedFiftyCoupon.discountValue * (2 : ℚ)) (10 * 2) = 20
    ∧ (10 : ℚ) ≠ 20 := by
  refine ⟨?_, rfl, by norm_num [fixedFiftyCoupon], by norm_num⟩
  norm_num [calculateDiscount, isCouponApplicable, Coupon.isApplicable,
    Coupon.isExpired, Coupon.isUsageLimitReached, calculateCartTotal, jsItems,
    okCart, cartItemsTotal, checkProductWiseApplicability, matchedItems,
    calculateProductWiseDiscount, productWiseItemDiscount, fixedFiftyCoupon,
    fixedFiftyCart, Except.map, bind_ok_eq, Except.bind, pure, Except.pure]

/-- C2 (amended): for every applicable PRODUCT_WISE coupon whose `maxDiscount`
is not set to zero, each matched item's discount is
`price×quantity×discountValue/100` when `discountValue ≤ 100` (the service's
percentage test — not the `discountType` field, which it ignores) and
`discountValue×quantity` otherwise; a set `maxDiscount` caps each item
separately, each item is then clamped to its own subtotal, and the result is
the sum over matched items together with the per-item breakdown. -/
theorem claim_C2 (c : Coupon) (items : List Item) (now : ℚ)
    (htype : c.type = .PRODUCT_WISE) (hmax : c.maxDiscount ≠ some 0)
    (a : ApplicResult) (ha : isCouponApplicable c (okCart items) now = .ok a)
    (happ : a.applicable = true)
    (dr : DiscountResult) (hdr : calculateDiscount c (okCart items) now = .ok dr) :
    dr.discount = ((matchedItems c items).map (specProductWiseItemDiscount c)).sum
    ∧ dr.itemDiscounts = some ((matchedItems c items).map (fun it =>
        { productId := it.productId, quantity := it.quantity
          itemDiscount := specProductWiseItemDiscount c it })) := by
  obtain ⟨-, -, hcase⟩ := applicable_cases ha happ
  rcases hcase with ⟨hty, -⟩ | ⟨hty, -, -, ha'⟩ | ⟨hty, -⟩
  · rw [htype] at hty
    simp at hty
  · rw [calculateDiscount_okCart_pw ha happ htype] at hdr
    obtain rfl := (Except.ok.inj hdr).symm
    subst ha'
    unfold calculateProductWiseDiscount
    simp only [Option.getD_some]
    constructor
    · congr 1
      exact List.map_congr_left (fun it _ => productWiseItemDiscount_eq_spec hmax it)
    · congr 1
      exact List.map_congr_left (fun it _ => by
        rw [productWiseItemDiscount_eq_spec hmax it])
  · rw [htype] at hty
    simp at hty

/-- C3: for every applicable CART_WISE coupon whose `discountValue` is in the
1–100 percentage range, the discount is
`min(min(cartTotal × discountValue/100, maxDiscount when set), cartTotal)`
("set" read as present and non-zero, the JS truthiness guard). -/
theorem claim_C3 (c : Coupon) (items : List Item) (now : ℚ)
    (htype : c.type = .CART_WISE)
    (_hlo : 1 ≤ c.discountValue) (hhi : c.discountValue ≤ 100)
    (hmax : c.maxDiscount ≠ some 0)
    (a : ApplicResult) (ha : isCouponApplicable c (okCart items) now = .ok a)
    (happ : a.applicable = true)
    (dr : DiscountResult) (hdr : calculateDiscount c (okCart items) now = .ok dr) :
    dr.discount = specCartWiseDiscount c (cartItemsTotal items) := by
  obtain ⟨-, -, hcase⟩ := applicable_cases ha happ
  rcases hcase with ⟨hty, ha'⟩ | ⟨hty, -⟩ | ⟨hty, -⟩
  · rw [calculateDiscount_okCart_cw ha happ htype] at hdr
    obtain rfl := (Except.ok.inj hdr).symm
    subst ha'
    unfold calculateCartWiseDiscount specCartWiseDiscount applyMaxDiscountCap
    simp only [Option.getD_some, if_pos hhi]
    cases hmd : c.maxDiscount with
    | none => rfl
    | some m =>
      have hne : m ≠ 0 := by
        rintro rfl
        exact hmax hmd
      dsimp only
      by_cases hlt : m < cartItemsTotal items * c.discountValue / 100
      · rw [if_pos ⟨hne, hlt⟩, min_eq_right (le_of_lt hlt)]
      · rw [if_neg (by tauto), min_eq_left (not_lt.mp hlt)]
  · rw [htype] at hty
    simp at hty
  · rw [htype] at hty
    simp at hty

/-- C4: for every schema-validated coupon (non-negative `discountValue` and
`maxDiscount`) over a validated cart (positive quantities and prices),
`calculateDiscount` returns a non-negative discount; for CART_WISE it is at
most the cart total, and for PRODUCT_WISE at most the sum of the matched
items' subtotals. -/
theorem claim_C4 (c : Coupon) (items : List Item) (now : ℚ)
    (_hq : ∀ it ∈ items, 0 < it.quantity) (hp : ∀ it ∈ items, 0 < it.price)
    (hdv : 0 ≤ c.discountValue)
    (hmax : ∀ m, c.maxDiscount = some m → 0 ≤ m)
    (dr : DiscountResult) (hdr : calculateDiscount c (okCart items) now = .ok dr) :
    0 ≤ dr.discount
    ∧ (c.type = .CART_WISE → dr.discount ≤ cartItemsTotal items)
    ∧ (c.type = .PRODUCT_WISE → dr.discount ≤ cartItemsTotal (matchedItems c items)) := by
  have hp' : ∀ it ∈ items, 0 ≤ it.price := fun it h => le_of_lt (hp it h)
  have htotal : 0 ≤ cartItemsTotal items := cartItemsTotal_nonneg hp'
  have hmtotal : 0 ≤ cartItemsTotal (matchedItems c items) :=
    cartItemsTotal_nonneg (fun it h => hp' it (mem_of_mem_matchedItems h))
  obtain ⟨a, ha⟩ := isCouponApplicable_okCart_isOk c items now
  cases happ : a.applicable with
  | false =>
    rw [calculateDiscount_okCart_inapplicable ha happ] at hdr
    obtain rfl := (Except.ok.inj hdr).symm
    exact ⟨le_refl 0, fun _ => htotal, fun _ => hmtotal⟩
  | true =>
    obtain ⟨-, -, hcase⟩ := applicable_cases ha happ
    rcases hcase with ⟨hty, ha'⟩ | ⟨hty, -, -, ha'⟩ | ⟨hty, -, -, -, ha'⟩
    · rw [calculateDiscount_okCart_cw ha happ hty] at hdr
      obtain rfl := (Except.ok.inj hdr).symm
      subst ha'
      unfold calculateCartWiseDiscount
      simp only [Option.getD_some]
      have hraw : (0 : ℚ) ≤
          (if c.discountValue ≤ 100 then cartItemsTotal items * c.discountValue / 100
           else c.discountValue) := by
        split_ifs
        · exact div_nonneg (mul_nonneg htotal hdv) (by norm_num)
        · exact hdv
      refine ⟨le_min (applyMaxDiscountCap_nonneg hraw hmax) htotal, fun _ => min_le_right _ _, ?_⟩
      intro h
      rw [hty] at h
      simp at h
    · rw [calculateDiscount_okCart_pw ha happ hty] at hdr
      obtain rfl := (Except.ok.inj hdr).symm
      subst ha'
      unfold calculateProductWiseDiscount
      simp only [Option.getD_some]
      refine ⟨?_, ?_, fun _ => ?_⟩
      · apply List.sum_nonneg
        intro x hx
        obtain ⟨it, hit, rfl⟩ := List.mem_map.mp hx
        exact productWiseItemDiscount_nonneg
          (hp' it (mem_of_mem_matchedItems hit)) hdv hmax
      · intro h
        rw [hty] at h
        simp at h
      · rw [cartItemsTotal_eq_sum]
        exact List.sum_le_sum (fun it _ => productWiseItemDiscount_le_subtotal c it)
    · rw [calculateDiscount_okCart_bxgy ha happ hty] at hdr
      obtain rfl := (Except.ok.inj hdr).symm
      refine ⟨?_, fun h => ?_, fun h => ?_⟩
      · apply List.sum_nonneg
        intro x hx
        obtain ⟨f, hf, rfl⟩ := List.mem_map.mp hx
        obtain ⟨g, -, rfl⟩ := List.mem_map.mp hf
        unfold bxgyFreeItem
        cases hfind : items.find? (fun item => item.productId = g.productId) with
        | none => exact le_refl 0
        | some ci =>
          dsimp only
          exact mul_nonneg (hp' ci (List.mem_of_find?_eq_some hfind)) (Nat.cast_nonneg _)
      · rw [hty] at h
        simp at h
      · rw [hty] at h
        simp at h

theorem isCouponApplicable_gate_false {c : Coupon} {cart : JsCart} {now : ℚ}
    (hg : c.isApplicable now = false) :
    isCouponApplicable c cart now =
      .ok { applicable := false,
            reason := some "Coupon is not active, expired, or usage limit reached" } := by
  unfold isCouponApplicable
  rw [hg, if_bang_false]

theorem isCouponApplicable_minFail {c : Coupon} {cart : JsCart} {now : ℚ}
    (hg : c.isApplicable now = true)
    (hmin : c.minCartValue ≠ 0 ∧ calculateCartTotal cart < c.minCartValue) :
    isCouponApplicable c cart now =
      .ok { applicable := false,
            reason := some (minCartReason (calculateCartTotal cart) c.minCartValue) } := by
  unfold isCouponApplicable
  rw [hg, if_bang_true, if_pos hmin]

theorem isCouponApplicable_dispatch {c : Coupon} {cart : JsCart} {now : ℚ}
    (hg : c.isApplicable now = true)
    (hmin : ¬(c.minCartValue ≠ 0 ∧ calculateCartTotal cart < c.minCartValue)) :
    isCouponApplicable c cart now =
      (match c.type with
       | .CART_WISE => .ok (checkCartWiseApplicability c cart (calculateCartTotal cart))
       | .PRODUCT_WISE => checkProductWiseApplicability c cart
       | .BXGY => checkBxGyApplicability c cart
       | .UNKNOWN => .ok { applicable := false, reason := some "Unknown coupon type" }) := by
  unfold isCouponApplicable
  rw [hg, if_bang_true, if_neg hmin]

theorem calculateDiscount_inapplicable {c : Coupon} {cart : JsCart} {now : ℚ}
    {a : ApplicResult} (ha : isCouponApplicable c cart now = .ok a)
    (happ : a.applicable = false) :
    calculateDiscount c cart now = .ok (DiscountResult.ofApplicability a) := by
  unfold calculateDiscount
  rw [ha, bind_ok_eq, happ, if_bang_false]
  rfl

theorem calculateDiscount_cw_applicable {c : Coupon} {cart : JsCart} {now : ℚ}
    {a : ApplicResult} (ha : isCouponApplicable c cart now = .ok a)
    (happ : a.applicable = true) (hty : c.type = .CART_WISE) :
    calculateDiscount c cart now = .ok (calculateCartWiseDiscount c cart a) := by
  unfold calculateDiscount
  rw [ha, bind_ok_eq, happ, if_bang_true, hty]
  rfl

/-- A coupon of unknown type never computes a positive discount on a
well-formed cart (the applicability dispatch already rejects it). -/
theorem discount_zero_of_unknown {c : Coupon} {items : List Item} {now : ℚ}
    (hty : c.type = .UNKNOWN) {dr : DiscountResult}
    (hdr : calculateDiscount c (okCart items) now = .ok dr) :
    dr.discount = 0 := by
  obtain ⟨a, ha⟩ := isCouponApplicable_okCart_isOk c items now
  cases happ : a.applicable with
  | false =>
    rw [calculateDiscount_okCart_inapplicable ha happ] at hdr
    obtain rfl := (Except.ok.inj hdr).symm
    rfl
  | true =>
    obtain ⟨-, -, hcase⟩ := applicable_cases ha happ
    rcases hcase with ⟨hty', -⟩ | ⟨hty', -⟩ | ⟨hty', -⟩ <;> rw [hty] at hty' <;> simp at hty'

/-- C5: `applyCouponToCart` throws an application error carrying the
underlying reason exactly when the computed discount is `0` and succeeds
otherwise; in the below-minimum scenario (`minCartValue` 1000, cart total 500)
evaluation returns inapplicable with a reason naming both values, calculation
returns discount 0 with the same reason, and application throws that reason. -/
theorem claim_C5 :
    (∀ (c : Coupon) (items : List Item) (now : ℚ) (dr : DiscountResult),
      calculateDiscount c (okCart items) now = .ok dr →
        (dr.discount = 0 →
            applyCouponToCart c (okCart items) now =
              .error (.appError ("Cannot apply coupon: " ++ reasonOrInvalid dr.reason)))
        ∧ (dr.discount ≠ 0 → ∃ res, applyCouponToCart c (okCart items) now = .ok res))
    ∧ isCouponApplicable minFailCoupon (okCart minFailCart) 0 =
        .ok { applicable := false, reason := some (minCartReason 500 1000) }
    ∧ calculateDiscount minFailCoupon (okCart minFailCart) 0 =
        .ok { discount := 0, applicable := some false
              reason := some (minCartReason 500 1000) }
    ∧ applyCouponToCart minFailCoupon (okCart minFailCart) 0 =
        .error (.appError ("Cannot apply coupon: " ++ minCartReason 500 1000)) := by
  have hgen : ∀ (c : Coupon) (items : List Item) (now : ℚ) (dr : DiscountResult),
      calculateDiscount c (okCart items) now = .ok dr →
        (dr.discount = 0 →
            applyCouponToCart c (okCart items) now =
              .error (.appError ("Cannot apply coupon: " ++ reasonOrInvalid dr.reason)))
        ∧ (dr.discount ≠ 0 → ∃ res, applyCouponToCart c (okCart items) now = .ok res) := by
    intro c items now dr hdr
    constructor
    · intro h0
      unfold applyCouponToCart
      rw [hdr, bind_ok_eq, if_pos h0]
      rfl
    · intro hne
      unfold applyCouponToCart
      rw [hdr, bind_ok_eq, if_neg hne]
      cases c.type <;> exact ⟨_, rfl⟩
  have hct500 : calculateCartTotal (okCart minFailCart) = 500 := by
    norm_num [calculateCartTotal, jsItems, okCart, cartItemsTotal, minFailCart]
  have hev : isCouponApplicable minFailCoupon (okCart minFailCart) 0 =
      .ok { applicable := false, reason := some (minCartReason 500 1000) } := by
    have h := @isCouponApplicable_minFail minFailCoupon (okCart minFailCart) 0 rfl
      ⟨by norm_num [minFailCoupon], by rw [hct500]; norm_num [minFailCoupon]⟩
    rw [h, hct500]
    rfl
  have hcalc : calculateDiscount minFailCoupon (okCart minFailCart) 0 =
      .ok { discount := 0, applicable := some false
            reason := some (minCartReason 500 1000) } := by
    rw [calculateDiscount_inapplicable hev rfl]
    rfl
  refine ⟨hgen, hev, hcalc, ?_⟩
  have := (hgen minFailCoupon minFailCart 0 _ hcalc).1 rfl
  simpa [reasonOrInvalid, minCartReason] using this

/-- C5 witness: the general statement applied at the below-minimum scenario. -/
theorem claim_C5_witness :
    calculateDiscount minFailCoupon (okCart minFailCart) 0 =
      .ok { discount := 0, applicable := some false
            reason := some (minCartReason 500 1000) }
    ∧ applyCouponToCart minFailCoupon (okCart minFailCart) 0 =
      .error (.appError ("Cannot apply coupon: " ++
        reasonOrInvalid (some (minCartReason 500 1000)))) :=
  have hcalc := claim_C5.2.2.1
  ⟨hcalc, (claim_C5.1 minFailCoupon minFailCart 0 _ hcalc).1 rfl⟩

/-- C6 counterexample: with no minimum cart value configured, evaluating a
PRODUCT_WISE coupon against a missing (`null`) cart dereferences `cart.items`
and raises a TypeError instead of returning an inapplicable result as data. -/
theorem claim_C6_counterexample :
    isCouponApplicable nullCartCoupon none 0 = .error .typeError := by
  have hg : nullCartCoupon.isApplicable 0 = true := rfl
  have hmin : ¬(nullCartCoupon.minCartValue ≠ 0 ∧
      calculateCartTotal none < nullCartCoupon.minCartValue) := by
    norm_num [nullCartCoupon]
  rw [isCouponApplicable_dispatch hg hmin]
  rfl

/-- C6 (amended): a malformed or absent cart is treated as cart total `0`.
When a positive minimum cart value is configured, every variant returns an
inapplicable result as data with discount `0`.  Without one, CART_WISE still
returns discount `0` as data (for a schema-validated coupon), but
PRODUCT_WISE and BXGY with non-empty product configuration dereference the
missing `items` array and raise a TypeError. -/
theorem claim_C6 (c : Coupon) (now : ℚ) (cart : JsCart)
    (hmal : jsItems cart = none) :
    calculateCartTotal cart = 0
    ∧ (0 < c.minCartValue →
        ∃ a, isCouponApplicable c cart now = .ok a ∧ a.applicable = false
          ∧ ∃ dr, calculateDiscount c cart now = .ok dr ∧ dr.discount = 0)
    ∧ (c.type = .CART_WISE → 0 ≤ c.discountValue →
        (∀ m, c.maxDiscount = some m → 0 ≤ m) → c.minCartValue = 0 →
        ∃ dr, calculateDiscount c cart now = .ok dr ∧ dr.discount = 0)
    ∧ (c.type = .PRODUCT_WISE → c.isApplicable now = true → c.minCartValue = 0 →
        c.applicableProducts ≠ [] →
        isCouponApplicable c cart now = .error .typeError)
    ∧ (c.type = .BXGY → c.isApplicable now = true → c.minCartValue = 0 →
        c.buyProducts ≠ [] → c.getProducts ≠ [] →
        isCouponApplicable c cart now = .error .typeError) := by
  have hct : calculateCartTotal cart = 0 := by
    unfold calculateCartTotal
    rw [hmal]
  refine ⟨hct, ?_, ?_, ?_, ?_⟩
  · intro hpos
    cases hg : c.isApplicable now with
    | false =>
      refine ⟨_, isCouponApplicable_gate_false hg, rfl, ?_⟩
      exact ⟨_, calculateDiscount_inapplicable (isCouponApplicable_gate_false hg) rfl, rfl⟩
    | true =>
      have hmin : c.minCartValue ≠ 0 ∧ calculateCartTotal cart < c.minCartValue :=
        ⟨ne_of_gt hpos, by rw [hct]; exact hpos⟩
      refine ⟨_, isCouponApplicable_minFail hg hmin, rfl, ?_⟩
      exact ⟨_, calculateDiscount_inapplicable (isCouponApplicable_minFail hg hmin) rfl, rfl⟩
  · intro hty hdv hmax hmin0
    cases hg : c.isApplicable now with
    | false =>
      exact ⟨_, calculateDiscount_inapplicable (isCouponApplicable_gate_false hg) rfl, rfl⟩
    | true =>
      have hmin : ¬(c.minCartValue ≠ 0 ∧ calculateCartTotal cart < c.minCartValue) := by
        rw [hmin0]
        simp
      have ha : isCouponApplicable c cart now =
          .ok (checkCartWiseApplicability c cart (calculateCartTotal cart)) := by
        rw [isCouponApplicable_dispatch hg hmin, hty]
      refine ⟨_, calculateDiscount_cw_applicable ha rfl hty, ?_⟩
      unfold calculateCartWiseDiscount checkCartWiseApplicability
      simp only [Option.getD_some, hct]
      have hraw : (0 : ℚ) ≤
          (if c.discountValue ≤ 100 then 0 * c.discountValue / 100 else c.discountValue) := by
        split_ifs
        · norm_num
        · exact hdv
      exact min_eq_right (applyMaxDiscountCap_nonneg hraw hmax)
  · intro hty hg hmin0 hne
    have hmin : ¬(c.minCartValue ≠ 0 ∧ calculateCartTotal cart < c.minCartValue) := by
      rw [hmin0]
      simp
    rw [isCouponApplicable_dispatch hg hmin, hty]
    unfold checkProductWiseApplicability
    rw [if_neg (by simpa using hne), hmal]
  · intro hty hg hmin0 hbne hgne
    have hmin : ¬(c.minCartValue ≠ 0 ∧ calculateCartTotal cart < c.minCartValue) := by
      rw [hmin0]
      simp
    rw [isCouponApplicable_dispatch hg hmin, hty]
    unfold checkBxGyApplicability
    rw [if_neg (by simp [hbne, hgne]), hmal]

/-- C6 witness: the amended claim at a missing cart, with a positive minimum
cart value (first part) and at the CART_WISE shape of `minFailCoupon`. -/
theorem claim_C6_witness :
    jsItems (none : JsCart) = none
    ∧ calculateCartTotal (none : JsCart) = 0
    ∧ (0 < minFailCoupon.minCartValue)
    ∧ (∃ a, isCouponApplicable minFailCoupon (none : JsCart) 0 = .ok a
        ∧ a.applicable = false
        ∧ ∃ dr, calculateDiscount minFailCoupon (none : JsCart) 0 = .ok dr
            ∧ dr.discount = 0) :=
  have hmc : (0 : ℚ) < minFailCoupon.minCartValue := by norm_num [minFailCoupon]
  have h := claim_C6 minFailCoupon 0 none rfl
  ⟨rfl, h.1, hmc, h.2.1 hmc⟩

/-- C7: whenever `applyCouponToCart` succeeds, the returned cart satisfies
`totalPrice = cartTotal`, `totalDiscount = discount` and
`finalPrice = cartTotal − discount` exactly — no flooring at zero is
applied. -/
theorem claim_C7 (c : Coupon) (items : List Item) (now : ℚ)
    (res : ApplyResult) (h : applyCouponToCart c (okCart items) now = .ok res)
    (dr : DiscountResult) (hdr : calculateDiscount c (okCart items) now = .ok dr) :
    res.updatedCart.totalPrice = some (cartItemsTotal items)
    ∧ res.updatedCart.totalDiscount = some dr.discount
    ∧ res.updatedCart.finalPrice = some (cartItemsTotal items - dr.discount) := by
  unfold applyCouponToCart at h
  rw [hdr, bind_ok_eq] at h
  by_cases h0 : dr.discount = 0
  · rw [if_pos h0] at h
    exact Except.noConfusion h
  · rw [if_neg h0] at h
    cases hty : c.type <;> rw [hty] at h
    · obtain rfl := (Except.ok.inj h).symm
      exact ⟨rfl, rfl, rfl⟩
    · obtain rfl := (Except.ok.inj h).symm
      exact ⟨rfl, rfl, rfl⟩
    · obtain rfl := (Except.ok.inj h).symm
      exact ⟨rfl, rfl, rfl⟩
    · exact absurd (discount_zero_of_unknown hty hdr) h0

/-- C2 witness: the amended claim at the specification's product-wise running
example (20% on product 101, three units at 500), yielding discount 300. -/
theorem claim_C2_witness :
    isCouponApplicable pwCoupon (okCart pwCart) 0 = .ok pwApplic
    ∧ calculateDiscount pwCoupon (okCart pwCart) 0 = .ok pwResult
    ∧ pwResult.discount =
        ((matchedItems pwCoupon pwCart).map (specProductWiseItemDiscount pwCoupon)).sum
    ∧ ((matchedItems pwCoupon pwCart).map (specProductWiseItemDiscount pwCoupon)).sum = 300 :=
  have ha : isCouponApplicable pwCoupon (okCart pwCart) 0 = .ok pwApplic := by
    norm_num [isCouponApplicable, Coupon.isApplicable, Coupon.isExpired,
      Coupon.isUsageLimitReached, calculateCartTotal, jsItems, okCart, cartItemsTotal,
      checkProductWiseApplicability, matchedItems, pwCoupon, pwCart, pwApplic]
  have hdr : calculateDiscount pwCoupon (okCart pwCart) 0 = .ok pwResult := by
    norm_num [calculateDiscount, isCouponApplicable, Coupon.isApplicable,
      Coupon.isExpired, Coupon.isUsageLimitReached, calculateCartTotal, jsItems,
      okCart, cartItemsTotal, checkProductWiseApplicability, matchedItems,
      calculateProductWiseDiscount, productWiseItemDiscount, pwCoupon, pwCart,
      pwResult, Except.map, bind_ok_eq, Except.bind, pure, Except.pure]
  ⟨ha, hdr,
   (claim_C2 pwCoupon pwCart 0 rfl (by simp [pwCoupon]) pwApplic ha rfl pwResult hdr).1,
   by norm_num [matchedItems, specProductWiseItemDiscount, pwCoupon, pwCart]⟩

/-- C3 witness: the specification's cart-wise running example — 10% of a 2000
cart under a 500 cap yields 200. -/
theorem claim_C3_witness :
    isCouponApplicable cwCoupon (okCart cwCart) 0 =
      .ok { applicable := true, cartTotal := some 2000 }
    ∧ calculateDiscount cwCoupon (okCart cwCart) 0 = .ok cwResult
    ∧ cwResult.discount = specCartWiseDiscount cwCoupon (cartItemsTotal cwCart)
    ∧ specCartWiseDiscount cwCoupon (cartItemsTotal cwCart) = 200 :=
  have ha : isCouponApplicable cwCoupon (okCart cwCart) 0 =
      .ok { applicable := true, cartTotal := some 2000 } := by
    norm_num [isCouponApplicable, Coupon.isApplicable, Coupon.isExpired,
      Coupon.isUsageLimitReached, calculateCartTotal, jsItems, okCart, cartItemsTotal,
      checkCartWiseApplicability, cwCoupon, cwCart]
  have hdr : calculateDiscount cwCoupon (okCart cwCart) 0 = .ok cwResult := by
    norm_num [calculateDiscount, isCouponApplicable, Coupon.isApplicable,
      Coupon.isExpired, Coupon.isUsageLimitReached, calculateCartTotal, jsItems,
      okCart, cartItemsTotal, checkCartWiseApplicability, calculateCartWiseDiscount,
      applyMaxDiscountCap, cwCoupon, cwCart, cwResult, bind_ok_eq, Except.bind,
      pure, Except.pure]
  ⟨ha, hdr,
   claim_C3 cwCoupon cwCart 0 rfl (by norm_num [cwCoupon]) (by norm_num [cwCoupon])
     (by simp [cwCoupon]) _ ha rfl cwResult hdr,
   by norm_num [specCartWiseDiscount, cwCoupon, cartItemsTotal, cwCart]⟩

/-- C4 witness: the bounds at the cart-wise running example. -/
theorem claim_C4_witness :
    calculateDiscount cwCoupon (okCart cwCart) 0 = .ok cwResult
    ∧ (0 ≤ cwResult.discount
       ∧ (cwCoupon.type = .CART_WISE → cwResult.discount ≤ cartItemsTotal cwCart)
       ∧ (cwCoupon.type = .PRODUCT_WISE →
            cwResult.discount ≤ cartItemsTotal (matchedItems cwCoupon cwCart))) :=
  have hdr : calculateDiscount cwCoupon (okCart cwCart) 0 = .ok cwResult := by
    norm_num [calculateDiscount, isCouponApplicable, Coupon.isApplicable,
      Coupon.isExpired, Coupon.isUsageLimitReached, calculateCartTotal, jsItems,
      okCart, cartItemsTotal, checkCartWiseApplicability, calculateCartWiseDiscount,
      applyMaxDiscountCap, cwCoupon, cwCart, cwResult, bind_ok_eq, Except.bind,
      pure, Except.pure]
  ⟨hdr,
   claim_C4 cwCoupon cwCart 0
     (by intro it hit; fin_cases hit; norm_num)
     (by intro it hit; fin_cases hit; norm_num)
     (by norm_num [cwCoupon])
     (by intro m hm; rw [show cwCoupon.maxDiscount = some 500 from rfl] at hm;
         cases hm; norm_num)
     cwResult hdr⟩

/-- C7 witness: the successful cart-wise application of the running example
(`totalPrice` 2000, `totalDiscount` 200, `finalPrice` 1800). -/
theorem claim_C7_witness :
    applyCouponToCart cwCoupon (okCart cwCart) 0 = .ok cwApplyResult
    ∧ cwApplyResult.updatedCart.totalPrice = some (cartItemsTotal cwCart)
    ∧ cwApplyResult.updatedCart.totalDiscount = some cwResult.discount
    ∧ cwApplyResult.updatedCart.finalPrice =
        some (cartItemsTotal cwCart - cwResult.discount) :=
  have hdr : calculateDiscount cwCoupon (okCart cwCart) 0 = .ok cwResult := by
    norm_num [calculateDiscount, isCouponApplicable, Coupon.isApplicable,
      Coupon.isExpired, Coupon.isUsageLimitReached, calculateCartTotal, jsItems,
      okCart, cartItemsTotal, checkCartWiseApplicability, calculateCartWiseDiscount,
      applyMaxDiscountCap, cwCoupon, cwCart, cwResult, bind_ok_eq, Except.bind,
      pure, Except.pure]
  have happly : applyCouponToCart cwCoupon (okCart cwCart) 0 = .ok cwApplyResult := by
    unfold applyCouponToCart
    rw [hdr, bind_ok_eq, if_neg (by norm_num [cwResult])]
    norm_num [calculateCartTotal, jsItems, okCart, cartItemsTotal, cwCoupon, cwCart,
      cwResult, cwApplyResult, UpdatedItem.ofItem, pure, Except.pure]
  ⟨happly, claim_C7 cwCoupon cwCart 0 cwApplyResult happly cwResult hdr⟩

theorem rankedLE_trans : ∀ (a b c : RankedCoupon),
    rankedLE a b → rankedLE b c → rankedLE a c := by
  intro a b c hab hbc
  simp only [rankedLE, decide_eq_true_eq] at hab hbc ⊢
  exact le_trans hbc hab

theorem rankedLE_total : ∀ (a b : RankedCoupon), rankedLE a b || rankedLE b a := by
  intro a b
  simp only [rankedLE, Bool.or_eq_true, decide_eq_true_eq]
  exact le_total _ _

theorem rankRaw_cons (c : Coupon) (cs : List Coupon) (items : List Item) (now : ℚ) :
    rankRaw (c :: cs) items now =
      (match calculateDiscount c (okCart items) now with
       | .ok dr => if 0 < dr.discount then [rankEntry c dr] else []
       | .error _ => []) ++ rankRaw cs items now := by
  unfold rankRaw
  rw [List.filterMap_cons]
  cases calculateDiscount c (okCart items) now with
  | ok dr => by_cases hpos : 0 < dr.discount <;> simp [hpos]
  | error e => simp

theorem getApplicableCoupons_okCart (coupons : List Coupon) (items : List Item) (now : ℚ) :
    getApplicableCoupons coupons (okCart items) now =
      .ok ((rankRaw coupons items now).mergeSort rankedLE) := by
  have main : ∀ (cs : List Coupon) (acc : List RankedCoupon),
      (List.foldlM (fun acc c => do
          let dr ← calculateDiscount c (okCart items) now
          if 0 < dr.discount then
            return acc ++ [rankEntry c dr]
          else
            return acc) acc cs : Except JsErr (List RankedCoupon))
        = .ok (acc ++ rankRaw cs items now) := by
    intro cs
    induction cs with
    | nil =>
      intro acc
      simp only [List.foldlM_nil, rankRaw, List.filterMap_nil, List.append_nil]
      rfl
    | cons c cs ih =>
      intro acc
      obtain ⟨dr, hdr⟩ := calculateDiscount_okCart_isOk c items now
      rw [List.foldlM_cons, rankRaw_cons, hdr]
      by_cases hpos : 0 < dr.discount
      · simp only [bind_ok_eq, if_pos hpos, hdr, pure_bind, ih, List.append_assoc,
          List.singleton_append]
      · simp only [bind_ok_eq, if_neg hpos, hdr, pure_bind, ih, List.append_assoc,
          List.nil_append]
  unfold getApplicableCoupons
  rw [main coupons [], bind_ok_eq, List.nil_append]
  rfl

theorem mergeSort_rankedLE_filter_eq (l : List RankedCoupon) (p : RankedCoupon → Bool)
    (hp : ∀ a b, p a = true → p b = true → rankedLE a b = true) :
    (l.mergeSort rankedLE).filter p = l.filter p := by
  have hpw : (l.filter p).Pairwise (fun a b => rankedLE a b = true) :=
    List.pairwise_of_forall_mem_list (fun a ha b hb =>
      hp a b (List.of_mem_filter ha) (List.of_mem_filter hb))
  have hsub : List.Sublist (l.filter p) (l.mergeSort rankedLE) :=
    List.sublist_mergeSort rankedLE_trans rankedLE_total hpw (List.filter_sublist l)
  have hsub2 : List.Sublist (l.filter p) ((l.mergeSort rankedLE).filter p) := by
    have h2 := hsub.filter p
    rwa [List.filter_eq_self.mpr (fun a ha => List.of_mem_filter ha)] at h2
  have hperm : ((l.mergeSort rankedLE).filter p).Perm (l.filter p) :=
    (List.mergeSort_perm l rankedLE).filter p
  exact (hsub2.eq_of_length hperm.length_eq.symm).symm

theorem mergeSort_pair {α : Type} (le : α → α → Bool) (a b : α) :
    List.mergeSort [a, b] le = if le a b then [a, b] else [b, a] := by
  simp [List.mergeSort, List.merge]

/-- C9: the ranking step of `getApplicableCoupons` keeps exactly the entries
with positive discount (a permutation of the positive-discount entries in
collection order), sorted by discount descending, and entries with equal
discounts keep their relative collection order (the filtered sublist at each
discount value is unchanged); concretely, coupons yielding discounts
[50, 200, 0] produce the order [200, 50] with the zero entry excluded. -/
theorem claim_C9 :
    (∀ (coupons : List Coupon) (items : List Item) (now : ℚ),
      ∃ ranked,
        getApplicableCoupons coupons (okCart items) now = .ok ranked
        ∧ ranked.Perm (rankRaw coupons items now)
        ∧ (∀ e ∈ ranked, 0 < e.discount)
        ∧ ranked.Pairwise (fun a b => b.discount ≤ a.discount)
        ∧ (∀ d : ℚ, ranked.filter (fun e => decide (e.discount = d)) =
            (rankRaw coupons items now).filter (fun e => decide (e.discount = d))))
    ∧ (getApplicableCoupons [rankCouponA, rankCouponB, rankCouponZ] (okCart rankCart) 0).map
        (List.map (fun e => (e.code, e.discount))) = .ok [("B", 200), ("A", 50)] := by
  constructor
  · intro coupons items now
    refine ⟨_, getApplicableCoupons_okCart coupons items now, ?_, ?_, ?_, ?_⟩
    · exact List.mergeSort_perm _ _
    · intro e he
      rw [List.mem_mergeSort] at he
      unfold rankRaw at he
      obtain ⟨c, -, hc⟩ := List.mem_filterMap.mp he
      revert hc
      cases calculateDiscount c (okCart items) now with
      | ok dr =>
        by_cases hpos : 0 < dr.discount
        · intro hc
          simp only [if_pos hpos, Option.some.injEq] at hc
          rw [← hc]
          exact hpos
        · intro hc
          simp [if_neg hpos] at hc
      | error err =>
        intro hc
        simp at hc
    · have hs := List.sorted_mergeSort rankedLE_trans rankedLE_total
        (rankRaw coupons items now)
      exact hs.imp (fun hab => by simpa [rankedLE, decide_eq_true_eq] using hab)
    · intro d
      apply mergeSort_rankedLE_filter_eq
      intro a b hpa hpb
      simp only [decide_eq_true_eq] at hpa hpb
      simp [rankedLE, hpa, hpb]
  · rw [getApplicableCoupons_okCart]
    have hraw : rankRaw [rankCouponA, rankCouponB, rankCouponZ] rankCart 0 =
        [rankEntry rankCouponA { discount := 50, cartTotal := some 1000
                                 discountType := some "percentage" },
         rankEntry rankCouponB { discount := 200, cartTotal := some 1000
                                 discountType := some "percentage" }] := by
      norm_num [rankRaw, List.filterMap_cons, calculateDiscount, isCouponApplicable,
        Coupon.isApplicable, Coupon.isExpired, Coupon.isUsageLimitReached,
        calculateCartTotal, jsItems, okCart, cartItemsTotal, checkCartWiseApplicability,
        calculateCartWiseDiscount, applyMaxDiscountCap, minCartReason,
        DiscountResult.ofApplicability, rankCouponA, rankCouponB, rankCouponZ, rankCart,
        bind_ok_eq, Except.bind, pure, Except.pure]
    rw [hraw, mergeSort_pair]
    norm_num [rankedLE, rankEntry, rankCouponA, rankCouponB, Except.map]

theorem objGet_objSet (m : List (Nat × Nat)) (k v k' : Nat) :
    objGet (objSet m k v) k' = if k = k' then some v else objGet m k' := by
  induction m with
  | nil => simp [objSet, objGet]
  | cons hd tl ih =>
    obtain ⟨a, b⟩ := hd
    by_cases h1 : a = k
    · subst h1
      simp only [objSet, if_pos rfl, objGet]
      by_cases h2 : a = k'
      · simp [h2]
      · simp [h2]
    · simp only [objSet, if_neg h1, objGet]
      by_cases h2 : a = k'
      · have hkk : ¬(k = k') := by
          rintro rfl
          exact h1 h2
        simp [h2, hkk]
      · simp [h2, ih]

theorem buildCartProducts_concat (items : List Item) (it : Item) :
    buildCartProducts (items ++ [it]) =
      objSet (buildCartProducts items) it.productId it.quantity := by
  unfold buildCartProducts
  rw [List.foldl_append]
  rfl

theorem objGet_buildCartProducts (items : List Item) (pid : Nat) :
    objGet (buildCartProducts items) pid =
      (items.reverse.find? (fun it => decide (it.productId = pid))).map Item.quantity := by
  induction items using List.reverseRecOn with
  | nil => rfl
  | append_singleton items it ih =>
    rw [buildCartProducts_concat, objGet_objSet, List.reverse_append]
    simp only [List.reverse_singleton, List.singleton_append, List.find?_cons]
    by_cases h : it.productId = pid
    · simp [h]
    · simp [h, ih]

/-- C10: the BXGY product→quantity map assigns each cart line over the
previous entry, so a lookup yields the LAST cart line's quantity (general
lemma), never the sum across duplicate lines; concretely over `dupCart` (lines
for product 1 with quantities 1 and 5), the map holds 5, `dupCouponSix`
(needing six units) is inapplicable although the duplicate lines sum to six,
and the BXGY discount of `dupCouponFive` picks the FIRST line of get-product
2 (price 7, not 50), yielding 2 × 7 = 14. -/
theorem claim_C10 :
    (∀ (items : List Item) (pid : Nat),
        objGet (buildCartProducts items) pid =
          (items.reverse.find? (fun it => decide (it.productId = pid))).map Item.quantity)
    ∧ objGet (buildCartProducts dupCart) 1 = some 5
    ∧ (isCouponApplicable dupCouponSix (okCart dupCart) 0).map ApplicResult.applicable
        = .ok false
    ∧ (calculateDiscount dupCouponFive (okCart dupCart) 0).map DiscountResult.discount
        = .ok 14
    ∧ (dupCart.find? (fun it => decide (it.productId = 2))).map Item.price = some 7 := by
  refine ⟨objGet_buildCartProducts, by decide, ?_, ?_, ?_⟩
  · norm_num [isCouponApplicable, Coupon.isApplicable, Coupon.isExpired,
      Coupon.isUsageLimitReached, calculateCartTotal, jsItems, okCart, cartItemsTotal,
      checkBxGyApplicability, buildCartProducts, objSet, objGet, bxgyPossible,
      bxgyMaxApplications, dupCouponSix, dupCart, Except.map]
  · norm_num [calculateDiscount, isCouponApplicable, Coupon.isApplicable,
      Coupon.isExpired, Coupon.isUsageLimitReached, calculateCartTotal, jsItems,
      okCart, cartItemsTotal, checkBxGyApplicability, buildCartProducts, objSet,
      objGet, bxgyPossible, bxgyMaxApplications, calculateBxGyDiscount, bxgyFreeItem,
      dupCouponFive, dupCart, Except.map, bind_ok_eq, Except.bind, pure, Except.pure]
  · norm_num [dupCart]

/-- C9 witness: the general ranking statement applied to the concrete
three-coupon collection. -/
theorem claim_C9_witness :
    ∃ ranked,
      getApplicableCoupons [rankCouponA, rankCouponB, rankCouponZ] (okCart rankCart) 0
          = .ok ranked
      ∧ ranked.Perm (rankRaw [rankCouponA, rankCouponB, rankCouponZ] rankCart 0)
      ∧ (∀ e ∈ ranked, 0 < e.discount)
      ∧ ranked.Pairwise (fun a b => b.discount ≤ a.discount)
      ∧ (∀ d : ℚ, ranked.filter (fun e => decide (e.discount = d)) =
          (rankRaw [rankCouponA, rankCouponB, rankCouponZ] rankCart 0).filter
            (fun e => decide (e.discount = d))) :=
  claim_C9.1 [rankCouponA, rankCouponB, rankCouponZ] rankCart 0

end CouponRest
